import Mathlib

/-!
Shallow embedding of `src/main.py` (a FastAPI video-downloader shim) and
verification of its specification claims.

The program has three pieces:
* `sanitize_filename` — a pure helper removing the regex class `[\\/*?:"<>|]`;
* the `/info` handler `get_video_info` — filters and reshapes the format
  list reported by the yt-dlp extractor;
* the `/download` handler `download_video` — creates a temporary directory,
  runs the extractor, and either cleans up synchronously on failure or
  schedules a deferred cleanup and streams the produced file on success.

The external extractor (yt-dlp) is modelled abstractly: its outcome is an
`Except` value handed to the handler, exactly mirroring the `try/except`
boundary in the source.  The `/download` handler's effects are modelled as
an explicit event trace, and FastAPI's background-task semantics (tasks
run after the response has been sent) as a small interpreter over traces.
-/

namespace VideoDL

/-- The characters matched by the regex class `[\\/*?:"<>|]` in
`sanitize_filename` (src/main.py line 39). -/
def isInvalidChar (c : Char) : Bool :=
  c = '\\' || c = '/' || c = '*' || c = '?' || c = ':' ||
  c = '"' || c = '<' || c = '>' || c = '|'

/-- `sanitize_filename` (src/main.py lines 37-39):
`re.sub(r'[\\/*?:"<>|]', "", name)` replaces every character of the class
with the empty string, i.e. keeps exactly the characters outside it. -/
def sanitize_filename (name : String) : String :=
  String.mk (name.data.filter (fun c => !isInvalidChar c))

/-- One format record as reported by the extractor's metadata mode.
Optional fields model Python `dict.get` returning `None` when absent.
`height` is a Python int when present, `format_note` a string. -/
structure YtFormat where
  format_id : String
  ext : String
  vcodec : Option String
  acodec : Option String
  format_note : Option String
  height : Option Int
  filesize : Option Int
deriving Repr, DecidableEq

/-- The extractor's metadata result: an optional title and the format list. -/
structure YtInfo where
  title : Option String
  formats : List YtFormat
deriving Repr, DecidableEq

/-- The pydantic `VideoFormat` response model (src/main.py lines 26-30). -/
structure VideoFormat where
  format_id : String
  quality : String
  ext : String
  filesize : Option Int
deriving Repr, DecidableEq

/-- The pydantic `VideoInfoResponse` model (src/main.py lines 32-34). -/
structure VideoInfoResponse where
  title : String
  formats : List VideoFormat
deriving Repr, DecidableEq

/-- The Python value held by `quality_label` before `str()` is applied:
a string, an int, or `None`. -/
inductive PyLabel where
  | pstr (s : String)
  | pint (n : Int)
  | pnone
deriving Repr, DecidableEq

/-- `f.get("height")` viewed as the second operand of the `or`. -/
def heightLabel (f : YtFormat) : PyLabel :=
  match f.height with
  | some h => .pint h
  | none => .pnone

/-- `quality_label = f.get("format_note") or f.get("height")`
(src/main.py line 68).  Python `or` falls through when the left operand is
falsy, i.e. when `format_note` is absent (`None`) or the empty string. -/
def qualityLabel (f : YtFormat) : PyLabel :=
  match f.format_note with
  | some s => if s = "" then heightLabel f else .pstr s
  | none => heightLabel f

/-- Lines 69-70 and 75: `if isinstance(quality_label, int): f"{...}p"`,
then `str(quality_label)`.  `str(None)` is the string `"None"`. -/
def labelToString : PyLabel → String
  | .pstr s => s
  | .pint n => toString n ++ "p"
  | .pnone => "None"

/-- The `quality` string stored in the response for a kept format. -/
def quality (f : YtFormat) : String :=
  labelToString (qualityLabel f)

/-- The filter on line 67:
`f.get("vcodec") != "none" and f.get("acodec") != "none"`.
An absent field (`None`) compares unequal to the string `"none"`. -/
def keepFormat (f : YtFormat) : Bool :=
  f.vcodec ≠ some "none" && f.acodec ≠ some "none"

/-- The `VideoFormat` built for a kept entry (src/main.py lines 72-79). -/
def toVideoFormat (f : YtFormat) : VideoFormat :=
  { format_id := f.format_id
    quality := quality f
    ext := f.ext
    filesize := f.filesize }

/-- The accumulation loop of lines 64-79: append a reshaped record for each
format passing the video+audio filter, in order. -/
def buildFormats (fs : List YtFormat) : List VideoFormat :=
  (fs.filter keepFormat).map toVideoFormat

/-- The HTTP outcome of the `/info` handler: a 200 body, or an
`HTTPException` with a status code and detail string. -/
inductive InfoOutcome where
  | ok (body : VideoInfoResponse)
  | httpError (status : Nat) (detail : String)
deriving Repr, DecidableEq

/-- `get_video_info` (src/main.py lines 42-85).  The argument is the
outcome of the `ydl.extract_info` call: `.error e` models the extractor
raising with message `e` (caught on line 61), `.ok info` its result dict. -/
def get_video_info (extract : Except String YtInfo) : InfoOutcome :=
  match extract with
  | .error e => .httpError 400 ("Error de yt-dlp al obtener info: " ++ e)
  | .ok info =>
    let video_formats := buildFormats info.formats
    if video_formats.isEmpty then
      .httpError 404 "No se encontraron formatos de video compatibles (video+audio)."
    else
      .ok { title := sanitize_filename (info.title.getD "video_sin_titulo")
            formats := video_formats }

/-- `os.path.basename` on a POSIX path: the part after the last slash. -/
def basename (p : String) : String :=
  String.mk ((p.data.reverse.takeWhile (fun c => c ≠ '/')).reverse)

/-- One observable effect of the `/download` handler, in program order:
directory creation (`tempfile.mkdtemp`), synchronous deletion
(`shutil.rmtree`), deferred deletion (`background_tasks.add_task`),
raising an `HTTPException`, or returning a `FileResponse`. -/
inductive DlEvent where
  | mkdtemp (dir : String)
  | rmtreeSync (dir : String)
  | scheduleRmtree (dir : String)
  | respondError (status : Nat) (detail : String)
  | respondFile (path : String) (mediaType : String) (filename : String)
deriving Repr, DecidableEq

/-- `download_video` (src/main.py lines 88-127) as its event trace.
`tempDir` is the fresh directory returned by `tempfile.mkdtemp` on line 97.
`extract` models the offloaded `ydl.extract_info(url, download=True)`
together with `ydl.prepare_filename(info)`: on success the extractor
produced a file and the library computed its path `original_filename`
(line 113); on failure it raised with message `e` (caught on line 116). -/
def download_video (tempDir : String) (extract : Except String String) :
    List DlEvent :=
  DlEvent.mkdtemp tempDir ::
    (match extract with
     | .error e =>
       [DlEvent.rmtreeSync tempDir,
        DlEvent.respondError 500 ("Error de yt-dlp al descargar: " ++ e)]
     | .ok original_filename =>
       [DlEvent.scheduleRmtree tempDir,
        DlEvent.respondFile original_filename "application/octet-stream"
          (sanitize_filename (basename original_filename))])

/-- Lifecycle state while replaying a trace, tracking one directory `d`:
whether `d` currently exists, whether the response has been sent, how many
deletions of `d` ran before respectively after the response was sent, and
the background tasks scheduled so far. -/
structure FsState where
  dirExists : Bool
  responseSent : Bool
  deletionsBeforeResponse : Nat
  deletionsAfterResponse : Nat
  pendingTasks : List String
deriving Repr, DecidableEq

/-- Effect of a single event on the lifecycle state for directory `d`.
A `scheduleRmtree` only records the task; `respondError`/`respondFile`
mark the response as sent. -/
def stepEvent (d : String) (st : FsState) : DlEvent → FsState
  | .mkdtemp dir => if dir = d then { st with dirExists := true } else st
  | .rmtreeSync dir =>
    if dir = d then
      if st.responseSent then
        { st with dirExists := false
                  deletionsAfterResponse := st.deletionsAfterResponse + 1 }
      else
        { st with dirExists := false
                  deletionsBeforeResponse := st.deletionsBeforeResponse + 1 }
    else st
  | .scheduleRmtree dir => { st with pendingTasks := st.pendingTasks ++ [dir] }
  | .respondError _ _ => { st with responseSent := true }
  | .respondFile _ _ _ => { st with responseSent := true }

/-- Replay a handler trace and then run the scheduled background tasks.
FastAPI runs `BackgroundTasks` only after the response body has been
fully transmitted, so the pending deletions execute after every event of
the handler itself. -/
def runLifecycle (d : String) (events : List DlEvent) : FsState :=
  let afterHandler :=
    events.foldl (stepEvent d) ⟨false, false, 0, 0, []⟩
  afterHandler.pendingTasks.foldl
    (fun st dir => stepEvent d st (DlEvent.rmtreeSync dir)) afterHandler

/-- The nine characters the specification says the sanitizer removes:
`\ / * ? : " < > |`. -/
def forbiddenChars : List Char := ['\\', '/', '*', '?', ':', '"', '<', '>', '|']

/-- The format record of the spec's concrete `/info` scenario:
`vcodec="avc1", acodec="mp4a", height=720, ext="mp4", format_id="22"`,
no note, no filesize. -/
def exampleFormat : YtFormat :=
  { format_id := "22", ext := "mp4", vcodec := some "avc1", acodec := some "mp4a"
    format_note := none, height := some 720, filesize := none }

/-- The extractor result of the spec's concrete `/info` scenario:
title `"My:Video"` and the single format above. -/
def exampleInfo : YtInfo := { title := some "My:Video", formats := [exampleFormat] }

/-- The expected `/info` response of the concrete scenario. -/
def exampleResponse : VideoInfoResponse :=
  { title := "MyVideo"
    formats := [{ format_id := "22", quality := "720p", ext := "mp4", filesize := none }] }

/-- A format record carrying a non-empty `format_note`, used to exercise
the note branch of the quality derivation. -/
def exampleNoteFormat : YtFormat :=
  { format_id := "300", ext := "mp4", vcodec := some "avc1", acodec := some "mp4a"
    format_note := some "720p60", height := some 720, filesize := some 1000 }

/-- An extractor result whose only format has `vcodec="none"` (video
absent), so nothing survives the video+audio filter. -/
def exampleVideoOnlyInfo : YtInfo :=
  { title := some "t"
    formats := [{ format_id := "1", ext := "mp4", vcodec := some "none"
                  acodec := some "mp4a", format_note := none, height := none
                  filesize := none }] }

/-- The character class of the sanitizer's regex holds exactly the nine
forbidden characters of the spec. -/
lemma isInvalidChar_iff (c : Char) : isInvalidChar c = true ↔ c ∈ forbiddenChars := by
  simp [isInvalidChar, forbiddenChars]
  tauto

/-- Claim C2: `sanitize_filename s` is `s` with every occurrence of the
nine characters `\ / * ? : " < > |` removed and every other character
preserved in its original order: the result is exactly the subsequence of
`s` outside `forbiddenChars` (so order is preserved), no forbidden
character survives, and every non-forbidden character keeps its
multiplicity.  Totality, determinism and purity hold by construction,
since `sanitize_filename` is a Lean function. -/
theorem sanitize_filename_removes_forbidden (s : String) :
    (sanitize_filename s).data = s.data.filter (fun c => decide (c ∉ forbiddenChars)) ∧
    (sanitize_filename s).data.Sublist s.data ∧
    (∀ c, c ∈ forbiddenChars → ¬ c ∈ (sanitize_filename s).data) ∧
    (∀ c, ¬ c ∈ forbiddenChars → (sanitize_filename s).data.count c = s.data.count c) := by
  have hpt : ∀ c : Char, (!isInvalidChar c) = decide (c ∉ forbiddenChars) := by
    intro c
    by_cases h : isInvalidChar c = true
    · simp [h, (isInvalidChar_iff c).mp h]
    · have hne : ¬ c ∈ forbiddenChars := fun hm => h ((isInvalidChar_iff c).mpr hm)
      simp [Bool.eq_false_iff.mpr h, hne]
  refine ⟨?_, ?_, ?_, ?_⟩
  · show (s.data.filter (fun c => !isInvalidChar c)) = _
    exact List.filter_congr (fun c _ => hpt c)
  · exact List.filter_sublist s.data
  · intro c hc hmem
    have hfc := List.of_mem_filter hmem
    simp only [Bool.not_eq_eq_eq_not, Bool.not_true] at hfc
    exact absurd ((isInvalidChar_iff c).mpr hc) (by simp [hfc])
  · intro c hc
    exact List.count_filter (by simp [hpt c, hc])

/-- Witness for C2 at the concrete string `"a:b"` and character `'a'`. -/
theorem sanitize_filename_removes_forbidden_witness :
    ¬ 'a' ∈ forbiddenChars ∧
    (sanitize_filename "a:b").data.count 'a' = "a:b".data.count 'a' :=
  ⟨by decide, (sanitize_filename_removes_forbidden "a:b").2.2.2 'a' (by decide)⟩

/-- Claim C8: the sanitizer is idempotent, for every string. -/
theorem sanitize_filename_idempotent (s : String) :
    sanitize_filename (sanitize_filename s) = sanitize_filename s := by
  simp [sanitize_filename, List.filter_filter]

/-- Claim C1: every entry of a successful (200) `/info` response comes
from an extractor format record whose video codec and audio codec are
both present, i.e. neither is reported as the string `"none"`; no
video-only or audio-only record contributes an entry. -/
theorem info_formats_all_video_audio (info : YtInfo) (r : VideoInfoResponse)
    (hok : get_video_info (.ok info) = .ok r) :
    ∀ vf ∈ r.formats, ∃ f, f ∈ info.formats ∧
      f.vcodec ≠ some "none" ∧ f.acodec ≠ some "none" ∧ vf = toVideoFormat f := by
  intro vf hvf
  unfold get_video_info at hok
  by_cases he : (buildFormats info.formats).isEmpty
  · simp [he] at hok
  · simp [he] at hok
    subst hok
    simp only [buildFormats] at hvf
    obtain ⟨f, hfmem, hfeq⟩ := List.mem_map.mp hvf
    have hkeep := List.of_mem_filter hfmem
    have hmem := List.mem_of_mem_filter hfmem
    simp [keepFormat] at hkeep
    exact ⟨f, hmem, hkeep.1, hkeep.2, hfeq.symm⟩

/-- Witness for C1 at the concrete scenario input. -/
theorem info_formats_all_video_audio_witness :
    get_video_info (.ok exampleInfo) = .ok exampleResponse ∧
    ∃ f, f ∈ exampleInfo.formats ∧
      f.vcodec ≠ some "none" ∧ f.acodec ≠ some "none" ∧
      ({ format_id := "22", quality := "720p", ext := "mp4", filesize := none } :
        VideoFormat) = toVideoFormat f :=
  ⟨by decide,
   info_formats_all_video_audio exampleInfo exampleResponse (by decide)
     { format_id := "22", quality := "720p", ext := "mp4", filesize := none } (by decide)⟩

/-- Claim C3: for a kept format the quality string is the note field when
present (presence modelled as Python truthiness, i.e. a non-`None`,
non-empty string, matching the `or` on src/main.py line 68), else the
numeric height suffixed with `"p"`, else the stringified fallback
`"None"`; and the spec's concrete scenario holds: one format with
`height=720, ext="mp4", format_id="22"`, absent note and filesize, and
title `"My:Video"` yields `{title:"MyVideo",
formats:[{format_id:"22", quality:"720p", ext:"mp4", filesize:null}]}`. -/
theorem quality_derivation :
    (∀ f s, f.format_note = some s → s ≠ "" → quality f = s) ∧
    (∀ f h, (f.format_note = none ∨ f.format_note = some "") →
       f.height = some h → quality f = toString h ++ "p") ∧
    (∀ f, (f.format_note = none ∨ f.format_note = some "") →
       f.height = none → quality f = "None") ∧
    get_video_info (.ok exampleInfo) = .ok exampleResponse := by
  refine ⟨?_, ?_, ?_, by decide⟩
  · intro f s hnote hs
    simp [quality, qualityLabel, hnote, hs, labelToString]
  · intro f h hnote hh
    rcases hnote with hn | hn <;>
      simp [quality, qualityLabel, hn, heightLabel, hh, labelToString]
  · intro f hnote hh
    rcases hnote with hn | hn <;>
      simp [quality, qualityLabel, hn, heightLabel, hh, labelToString]

/-- Witness for C3: the note branch at a concrete format. -/
theorem quality_derivation_witness :
    exampleNoteFormat.format_note = some "720p60" ∧ "720p60" ≠ "" ∧
    quality exampleNoteFormat = "720p60" :=
  ⟨rfl, by decide, quality_derivation.1 exampleNoteFormat "720p60" rfl (by decide)⟩

/-- Claim C4: when the extractor succeeds but no format survives the
video+audio filter, `/info` answers 404 with the explanatory message; and
no `/info` outcome is ever a 200 with an empty formats list. -/
theorem info_no_formats_404 :
    (∀ info, buildFormats info.formats = [] →
       get_video_info (.ok info) =
         .httpError 404 "No se encontraron formatos de video compatibles (video+audio).") ∧
    (∀ extract r, get_video_info extract = InfoOutcome.ok r → r.formats ≠ []) := by
  constructor
  · intro info hempty
    simp [get_video_info, hempty]
  · intro extract r hok
    cases extract with
    | error e => simp [get_video_info] at hok
    | ok info =>
      unfold get_video_info at hok
      by_cases he : (buildFormats info.formats).isEmpty
      · simp [he] at hok
      · simp [he] at hok
        subst hok
        show buildFormats info.formats ≠ []
        exact fun hnil => he (by simp [hnil])

/-- Witness for C4 at the spec's only-`vcodec="none"` scenario. -/
theorem info_no_formats_404_witness :
    buildFormats exampleVideoOnlyInfo.formats = [] ∧
    get_video_info (.ok exampleVideoOnlyInfo) =
      .httpError 404 "No se encontraron formatos de video compatibles (video+audio)." :=
  ⟨by decide, info_no_formats_404.1 exampleVideoOnlyInfo (by decide)⟩

/-- Claim C7: when the extractor raises during `/info`, the handler
answers 400 and the detail string carries the extractor's error text. -/
theorem info_extractor_failure_400 (e : String) :
    get_video_info (.error e) =
      .httpError 400 ("Error de yt-dlp al obtener info: " ++ e) := rfl

/-- Claim C5: when the extractor raises during `/download`, the handler's
trace deletes the temporary directory synchronously, then responds 500
with the extractor's error text; replaying the lifecycle, the directory
does not survive this path. -/
theorem download_failure_cleanup (tempDir e : String) :
    download_video tempDir (.error e) =
      [DlEvent.mkdtemp tempDir, DlEvent.rmtreeSync tempDir,
       DlEvent.respondError 500 ("Error de yt-dlp al descargar: " ++ e)] ∧
    (runLifecycle tempDir (download_video tempDir (.error e))).dirExists = false := by
  constructor
  · rfl
  · simp [runLifecycle, download_video, stepEvent]

/-- Claim C6: over the whole `/download` lifecycle the temporary
directory is deleted exactly once and no longer exists afterwards; on
success the single deletion runs only after the response has been sent
(deferred background task), on failure it runs before the response. -/
theorem download_tempdir_lifecycle (tempDir : String) (extract : Except String String) :
    (runLifecycle tempDir (download_video tempDir extract)).dirExists = false ∧
    (runLifecycle tempDir (download_video tempDir extract)).deletionsBeforeResponse +
      (runLifecycle tempDir (download_video tempDir extract)).deletionsAfterResponse = 1 ∧
    (∀ p, extract = .ok p →
       (runLifecycle tempDir (download_video tempDir extract)).deletionsBeforeResponse = 0 ∧
       (runLifecycle tempDir (download_video tempDir extract)).deletionsAfterResponse = 1) ∧
    (∀ e, extract = .error e →
       (runLifecycle tempDir (download_video tempDir extract)).deletionsBeforeResponse = 1 ∧
       (runLifecycle tempDir (download_video tempDir extract)).deletionsAfterResponse = 0) := by
  cases extract <;> simp [runLifecycle, download_video, stepEvent]

/-- Witness for C6 on a concrete successful download. -/
theorem download_tempdir_lifecycle_witness :
    (Except.ok "/tmp/d/f.mp4" : Except String String) = Except.ok "/tmp/d/f.mp4" ∧
    (runLifecycle "/tmp/d" (download_video "/tmp/d" (.ok "/tmp/d/f.mp4"))).deletionsBeforeResponse = 0 ∧
    (runLifecycle "/tmp/d" (download_video "/tmp/d" (.ok "/tmp/d/f.mp4"))).deletionsAfterResponse = 1 :=
  ⟨rfl, (download_tempdir_lifecycle "/tmp/d" (.ok "/tmp/d/f.mp4")).2.2.1 "/tmp/d/f.mp4" rfl⟩

/-- Claim C9: a successful `/download` ends with a file response whose
media type is `application/octet-stream` and whose suggested filename is
the sanitized basename of the produced file, so the suggested filename
contains none of the forbidden characters. -/
theorem download_success_response (tempDir p : String) :
    (download_video tempDir (.ok p)).getLast? =
      some (DlEvent.respondFile p "application/octet-stream"
        (sanitize_filename (basename p))) ∧
    ∀ c ∈ (sanitize_filename (basename p)).data, isInvalidChar c = false := by
  constructor
  · rfl
  · intro c hc
    have hfc := List.of_mem_filter hc
    simpa using hfc

/-- Witness for C9 at a concrete path and a character of its filename. -/
theorem download_success_response_witness :
    'M' ∈ (sanitize_filename (basename "/tmp/d/My:Video.mp4")).data ∧
    isInvalidChar 'M' = false :=
  ⟨by decide,
   (download_success_response "/tmp/d" "/tmp/d/My:Video.mp4").2 'M' (by decide)⟩

/-- Claim C10: on a successful `/download` the complete effect trace is
directory creation, deferred cleanup scheduling, and a file response
whose streamed path is exactly the extractor's unsanitized
`original_filename` — sanitization touches only the suggested filename,
and no event renames or rewrites the file.  Concretely, a produced file
`/tmp/abc/My:Video.mp4` is streamed from that very path while the
suggested name is `MyVideo.mp4`. -/
theorem download_streams_unsanitized_path (tempDir p : String) :
    download_video tempDir (.ok p) =
      [DlEvent.mkdtemp tempDir, DlEvent.scheduleRmtree tempDir,
       DlEvent.respondFile p "application/octet-stream"
         (sanitize_filename (basename p))] ∧
    download_video "/tmp/abc" (.ok "/tmp/abc/My:Video.mp4") =
      [DlEvent.mkdtemp "/tmp/abc", DlEvent.scheduleRmtree "/tmp/abc",
       DlEvent.respondFile "/tmp/abc/My:Video.mp4" "application/octet-stream"
         "MyVideo.mp4"] :=
  ⟨rfl, by decide⟩

end VideoDL
